import Mathlib

/-
Verification of the tiered caching layer of the monocloud repository.

The embedding below models, faithfully to the TypeScript source:
  - src/lib/redis-cache.ts : class RedisCache (the Tiered Cache), whose
    state is the module-level memoryCache Map plus the capability flags
    isRedisAvailable / isReadOnly / keysCommandAllowed / getCommandAllowed
    and the probe throttle lastConnectionCheck;
  - src/lib/cache.ts : class ServerCache (an in-memory cache with
    per-entry expiresAt timestamps).

The external Redis client (upstash) is modelled as a behaviour: a record
of response functions, one per command used by the source (get, set-with-
expiry, del, keys, exists).  A response is either a value or an error
carrying a message string; the source classifies errors by substring
matching on the message ("NOPERM", "no permissions", "readonly",
"connect", "network", "timeout", "keys"), which is mirrored exactly.
Each cache operation also returns the list of Redis commands it issued,
so that claims about which network calls happen are statable.
-/

namespace Monocloud

/-- Prefix test on character lists, used to define substring containment. -/
def listStartsWith : List Char → List Char → Bool
  | [], _ => true
  | _ :: _, [] => false
  | p :: ps, c :: cs => p == c && listStartsWith ps cs

/-- Substring containment on character lists. -/
def listContainsSub : List Char → List Char → Bool
  | hay, pat =>
    match hay with
    | [] => pat.isEmpty
    | _ :: t => listStartsWith pat hay || listContainsSub t pat

/-- Model of JavaScript String.prototype.includes, as used by the error
classification in src/lib/redis-cache.ts. -/
def strIncludes (s pat : String) : Bool :=
  listContainsSub s.toList pat.toList

/-- Permission-error test used on read paths: message includes "NOPERM" or
"no permissions" (redis-cache.ts lines 63, 199). -/
def isPermMsg (m : String) : Bool :=
  strIncludes m "NOPERM" || strIncludes m "no permissions"

/-- Permission-error test used on write paths: additionally matches
"readonly" (redis-cache.ts lines 121-126, 264-269). -/
def isWritePermMsg (m : String) : Bool :=
  isPermMsg m || strIncludes m "readonly"

/-- Connectivity-error test: message includes "connect", "network" or
"timeout" (redis-cache.ts lines 204-207, 284-287). -/
def isConnMsg (m : String) : Bool :=
  strIncludes m "connect" || strIncludes m "network" || strIncludes m "timeout"

/-- Result of one Redis client call: a value, or a raised error carrying
its message string. -/
inductive RResult (α : Type) where
  | ok (val : α)
  | err (msg : String)
deriving DecidableEq

/-- Value sent on a Redis write: either cached data, or the literal probe
string "test" written by checkRedisConnection. -/
inductive RedisVal (V : Type) where
  | val (v : V)
  | str (s : String)
deriving DecidableEq

/-- One Redis command issued over the network, recorded in call traces. -/
inductive RCall where
  | getC (key : String)
  | setC (key : String) (ttl : Nat)
  | delC (keys : List String)
  | keysC (pat : String)
  | existsC (key : String)
deriving DecidableEq

/-- Behaviour of the external Redis client: the response each command
receives.  This models the persistent-tier test double of the spec's
scenarios; responses depend on the command and its arguments only. -/
structure RedisConn (V : Type) where
  rget : String → RResult (Option V)
  rsetex : String → RedisVal V → Nat → RResult Unit
  rdel : List String → RResult Unit
  rkeys : String → RResult (List String)
  rexists : String → RResult Nat

/-- The in-process memory cache (a JavaScript Map), as an association
list with unique keys. -/
abbrev MemCache (V : Type) := List (String × V)

/-- Map.has. -/
def memHas {V : Type} (m : MemCache V) (k : String) : Bool :=
  m.any (fun p => p.1 == k)

/-- Map.get. -/
def memGet {V : Type} (m : MemCache V) (k : String) : Option V :=
  (m.find? (fun p => p.1 == k)).map (fun p => p.2)

/-- Map.set: last write wins. -/
def memSet {V : Type} (m : MemCache V) (k : String) (v : V) : MemCache V :=
  (k, v) :: m.filter (fun p => p.1 != k)

/-- Map.delete. -/
def memDel {V : Type} (m : MemCache V) (k : String) : MemCache V :=
  m.filter (fun p => p.1 != k)

/-- Map.size. -/
def memSize {V : Type} (m : MemCache V) : Nat := m.length

/-- Mutable state of a RedisCache instance: the shared memoryCache Map and
the private fields of the class (redis-cache.ts lines 10, 15-19). -/
structure CacheState (V : Type) where
  memoryCache : MemCache V
  isRedisAvailable : Bool
  isReadOnly : Bool
  keysCommandAllowed : Bool
  getCommandAllowed : Bool
  lastConnectionCheck : Nat
deriving DecidableEq

/-- Key namespace of the singleton instance (constructor default). -/
def pfx : String := "monocloud:"

/-- Probe throttle interval in milliseconds (redis-cache.ts line 20). -/
def connectionCheckInterval : Nat := 60000

/-- Field initialisers of a fresh RedisCache (lines 10, 15-19; the
constructor then immediately runs checkRedisConnection). -/
def initState (V : Type) : CacheState V :=
  { memoryCache := []
    isRedisAvailable := true
    isReadOnly := false
    keysCommandAllowed := true
    getCommandAllowed := true
    lastConnectionCheck := 0 }

/-- Snapshot returned by checkRedisConnection. -/
structure CapabilityStatus where
  available : Bool
  readOnly : Bool
  keysCommandAllowed : Bool
  getCommandAllowed : Bool
deriving DecidableEq

/-- Snapshot returned by getStatus (redis-cache.ts lines 412-419). -/
structure FullStatus where
  available : Bool
  readOnly : Bool
  keysCount : Nat
  memoryKeysCount : Nat
  keysCommandAllowed : Bool
  getCommandAllowed : Bool
deriving DecidableEq

namespace RedisCache

/-- getFullKey (redis-cache.ts lines 28-30). -/
def getFullKey (key : String) : String := pfx ++ key

/-- checkRedisConnection (redis-cache.ts lines 33-170), the Capability
Prober.  now is Date.now().  Every await on the Redis client inside the
source sits in its own inner try/catch, so the outer catch of lines
146-162 ("Complete connection failure") cannot be reached by a client
error and has no counterpart in the model.  The EXISTS fallback check of
lines 75-91 only logs, so it contributes a traced call and nothing else.
Both branches of the write-probe catch (lines 119-145) set
isReadOnly := true; they differ only in logging. -/
def checkRedisConnection {V : Type} (now : Nat) (conn : RedisConn V)
    (s : CacheState V) : CapabilityStatus × CacheState V × List RCall :=
  if now - s.lastConnectionCheck < connectionCheckInterval then
    (⟨s.isRedisAvailable, s.isReadOnly, s.keysCommandAllowed, s.getCommandAllowed⟩,
     s, [])
  else
    let s0 : CacheState V := { s with lastConnectionCheck := now }
    let testReadKey : String := pfx ++ "_connection_test_readonly"
    -- read probe (lines 57-73)
    let s1 : CacheState V :=
      match conn.rget testReadKey with
      | .ok _ => { s0 with getCommandAllowed := true, isRedisAvailable := true }
      | .err m =>
        if isPermMsg m then
          { s0 with getCommandAllowed := false, isRedisAvailable := false }
        else
          -- "might be that the key doesn't exist" (line 69)
          { s0 with getCommandAllowed := true, isRedisAvailable := true }
    -- EXISTS fallback check (lines 75-91): outcome ignored apart from logging
    let t2 : List RCall :=
      if s1.isRedisAvailable then [RCall.existsC testReadKey] else []
    -- KEYS probe (lines 93-108)
    let s2 : CacheState V :=
      match conn.rkeys (pfx ++ "_test_keys_*") with
      | .ok _ => { s1 with keysCommandAllowed := true }
      | .err m =>
        if isPermMsg m then { s1 with keysCommandAllowed := false } else s1
    -- write-then-delete probe (lines 110-145)
    let testWriteKey : String := pfx ++ "_connection_test_write"
    let wr : CacheState V × List RCall :=
      match conn.rsetex testWriteKey (RedisVal.str "test") 10 with
      | .ok _ =>
        match conn.rdel [testWriteKey] with
        | .ok _ => ({ s2 with isReadOnly := false },
                    [RCall.setC testWriteKey 10, RCall.delC [testWriteKey]])
        | .err _ => ({ s2 with isReadOnly := true },
                     [RCall.setC testWriteKey 10, RCall.delC [testWriteKey]])
      | .err _ => ({ s2 with isReadOnly := true }, [RCall.setC testWriteKey 10])
    let s3 : CacheState V := wr.1
    (⟨s3.isRedisAvailable, s3.isReadOnly, s3.keysCommandAllowed, s3.getCommandAllowed⟩,
     s3, RCall.getC testReadKey :: (t2 ++ (RCall.keysC (pfx ++ "_test_keys_*") :: wr.2)))

/-- get (redis-cache.ts lines 172-227).  The memory cache is consulted
first and carries no expiry information; Redis is consulted only when
available and GET is permitted; every Redis error is consumed here and
classified (permission / connectivity / other), never rethrown. -/
def get {V : Type} (key : String) (conn : RedisConn V) (s : CacheState V) :
    Option V × CacheState V × List RCall :=
  if memHas s.memoryCache key then
    (memGet s.memoryCache key, s, [])
  else if s.isRedisAvailable && s.getCommandAllowed then
    let fullKey := getFullKey key
    match conn.rget fullKey with
    | .ok (some data) =>
      (some data, { s with memoryCache := memSet s.memoryCache key data },
       [RCall.getC fullKey])
    | .ok none => (none, s, [RCall.getC fullKey])
    | .err m =>
      if isPermMsg m then
        (none, { s with getCommandAllowed := false }, [RCall.getC fullKey])
      else if isConnMsg m then
        (none, { s with isRedisAvailable := false }, [RCall.getC fullKey])
      else
        (none, s, [RCall.getC fullKey])
  else
    (none, s, [])

/-- set (redis-cache.ts lines 229-309).  The memory cache is written
unconditionally first.  If Redis is available and not read-only, the
write is attempted; on success and if GET is permitted, a verification
read follows, and a missing verification value yields false (line 255).
An error from the write or from the verification read lands in the one
catch of lines 260-301: permission errors set isReadOnly, connectivity
errors clear isRedisAvailable, and the call returns false.  When the
Redis branch is skipped (read-only or unavailable) set returns true on
the strength of the memory write alone. -/
def set {V : Type} (key : String) (data : V) (ttl : Nat) (conn : RedisConn V)
    (s : CacheState V) : Bool × CacheState V × List RCall :=
  let s1 : CacheState V := { s with memoryCache := memSet s.memoryCache key data }
  if s1.isRedisAvailable && !s1.isReadOnly then
    let fullKey := getFullKey key
    match conn.rsetex fullKey (RedisVal.val data) ttl with
    | .ok _ =>
      if s1.getCommandAllowed then
        match conn.rget fullKey with
        | .ok (some _) => (true, s1, [RCall.setC fullKey ttl, RCall.getC fullKey])
        | .ok none => (false, s1, [RCall.setC fullKey ttl, RCall.getC fullKey])
        | .err m =>
          if isWritePermMsg m then
            (false, { s1 with isReadOnly := true },
             [RCall.setC fullKey ttl, RCall.getC fullKey])
          else if isConnMsg m then
            (false, { s1 with isRedisAvailable := false },
             [RCall.setC fullKey ttl, RCall.getC fullKey])
          else
            (false, s1, [RCall.setC fullKey ttl, RCall.getC fullKey])
      else
        (true, s1, [RCall.setC fullKey ttl])
    | .err m =>
      if isWritePermMsg m then
        (false, { s1 with isReadOnly := true }, [RCall.setC fullKey ttl])
      else if isConnMsg m then
        (false, { s1 with isRedisAvailable := false }, [RCall.setC fullKey ttl])
      else
        (false, s1, [RCall.setC fullKey ttl])
  else if s1.isReadOnly then
    (true, s1, [])
  else
    (true, s1, [])

/-- has (redis-cache.ts lines 311-329). -/
def has {V : Type} (key : String) (conn : RedisConn V) (s : CacheState V) :
    Bool × CacheState V × List RCall :=
  if memHas s.memoryCache key then
    (true, s, [])
  else if s.isRedisAvailable then
    let fullKey := getFullKey key
    match conn.rexists fullKey with
    | .ok n => (n == 1, s, [RCall.existsC fullKey])
    | .err _ => (false, s, [RCall.existsC fullKey])
  else
    (false, s, [])

/-- delete (redis-cache.ts lines 331-361). -/
def delete {V : Type} (key : String) (conn : RedisConn V) (s : CacheState V) :
    Bool × CacheState V × List RCall :=
  let s1 : CacheState V := { s with memoryCache := memDel s.memoryCache key }
  if s1.isRedisAvailable && !s1.isReadOnly then
    let fullKey := getFullKey key
    match conn.rdel [fullKey] with
    | .ok _ => (true, s1, [RCall.delC [fullKey]])
    | .err m =>
      if isWritePermMsg m then
        (false, { s1 with isReadOnly := true }, [RCall.delC [fullKey]])
      else
        (false, s1, [RCall.delC [fullKey]])
  else
    (true, s1, [])

/-- clear (redis-cache.ts lines 363-409).  The memory cache is cleared
unconditionally; the Redis branch runs only when available, writable and
KEYS-permitted, and every error in it is consumed by the catch of lines
383-402.  In the remaining cases clear returns true having cleared
memory only. -/
def clear {V : Type} (pat : Option String) (conn : RedisConn V)
    (s : CacheState V) : Bool × CacheState V × List RCall :=
  let s1 : CacheState V := { s with memoryCache := [] }
  if s1.isRedisAvailable && !s1.isReadOnly && s1.keysCommandAllowed then
    let fullPattern : String :=
      match pat with
      | some p => getFullKey p
      | none => pfx ++ "*"
    match conn.rkeys fullPattern with
    | .ok keys =>
      if keys.length > 0 then
        match conn.rdel keys with
        | .ok _ => (true, s1, [RCall.keysC fullPattern, RCall.delC keys])
        | .err m =>
          if strIncludes m "NOPERM" && strIncludes m "keys" then
            (false, { s1 with keysCommandAllowed := false },
             [RCall.keysC fullPattern, RCall.delC keys])
          else if isWritePermMsg m then
            (false, { s1 with isReadOnly := true },
             [RCall.keysC fullPattern, RCall.delC keys])
          else
            (false, s1, [RCall.keysC fullPattern, RCall.delC keys])
      else
        (true, s1, [RCall.keysC fullPattern])
    | .err m =>
      if strIncludes m "NOPERM" && strIncludes m "keys" then
        (false, { s1 with keysCommandAllowed := false }, [RCall.keysC fullPattern])
      else if isWritePermMsg m then
        (false, { s1 with isReadOnly := true }, [RCall.keysC fullPattern])
      else
        (false, s1, [RCall.keysC fullPattern])
  else if !s1.keysCommandAllowed then
    (true, s1, [])
  else
    (true, s1, [])

/-- getStatus (redis-cache.ts lines 412-451): refreshes the probe (which
the throttle may satisfy from cache), then, when available and
KEYS-permitted, counts persistent keys with a live KEYS call whose
permission failure downgrades keysCommandAllowed. -/
def getStatus {V : Type} (now : Nat) (conn : RedisConn V) (s : CacheState V) :
    FullStatus × CacheState V × List RCall :=
  let pr := checkRedisConnection now conn s
  let s1 : CacheState V := pr.2.1
  let kc : Nat × CacheState V × List RCall :=
    if s1.isRedisAvailable && s1.keysCommandAllowed then
      match conn.rkeys (pfx ++ "*") with
      | .ok ks => (ks.length, s1, [RCall.keysC (pfx ++ "*")])
      | .err m =>
        if strIncludes m "NOPERM" && strIncludes m "keys" then
          (0, { s1 with keysCommandAllowed := false }, [RCall.keysC (pfx ++ "*")])
        else
          (0, s1, [RCall.keysC (pfx ++ "*")])
    else
      (0, s1, [])
  let s2 : CacheState V := kc.2.1
  (⟨s2.isRedisAvailable, s2.isReadOnly, kc.1, memSize s2.memoryCache,
    s2.keysCommandAllowed, s2.getCommandAllowed⟩,
   s2, pr.2.2 ++ kc.2.2)

end RedisCache

/-- Entry stored by ServerCache (src/lib/cache.ts lines 4-8). -/
structure ServerEntry (V : Type) where
  data : V
  timestamp : Nat
  expiresAt : Nat
deriving DecidableEq

/-- State of a ServerCache instance: its private Map. -/
abbrev ServerState (V : Type) := List (String × ServerEntry V)

namespace ServerCache

/-- get (cache.ts lines 15-28): an absent or expired entry yields null,
and an expired entry is deleted on discovery. -/
def get {V : Type} (now : Nat) (key : String) (st : ServerState V) :
    Option V × ServerState V :=
  match st.find? (fun p => p.1 == key) with
  | none => (none, st)
  | some p =>
    if now > p.2.expiresAt then
      (none, st.filter (fun q => q.1 != key))
    else
      (some p.2.data, st)

/-- set (cache.ts lines 31-38). -/
def set {V : Type} (now : Nat) (key : String) (data : V) (ttl : Nat)
    (st : ServerState V) : ServerState V :=
  (key, ⟨data, now, now + ttl⟩) :: st.filter (fun q => q.1 != key)

/-- has (cache.ts lines 41-44): the entry exists and has not expired. -/
def has {V : Type} (now : Nat) (key : String) (st : ServerState V) : Bool :=
  match st.find? (fun p => p.1 == key) with
  | none => false
  | some p => decide (now ≤ p.2.expiresAt)

end ServerCache

/-! Concrete persistent-tier test doubles and cache states, used by
counterexamples and witnesses.  Each double answers every command the
same way, mirroring the spec's configured-behaviour doubles. -/

/-- Healthy double: every command succeeds; reads find no key. -/
def connOk : RedisConn Nat :=
  { rget := fun _ => RResult.ok none
    rsetex := fun _ _ _ => RResult.ok ()
    rdel := fun _ => RResult.ok ()
    rkeys := fun _ => RResult.ok []
    rexists := fun _ => RResult.ok 0 }

/-- Fully disconnected double: every command raises a network timeout. -/
def connTimeout : RedisConn Nat :=
  { rget := fun _ => RResult.err "connection timeout"
    rsetex := fun _ _ _ => RResult.err "connection timeout"
    rdel := fun _ => RResult.err "connection timeout"
    rkeys := fun _ => RResult.err "connection timeout"
    rexists := fun _ => RResult.err "connection timeout" }

/-- Double whose writes raise an error that matches none of the message
patterns the source classifies. -/
def connWriteFail : RedisConn Nat :=
  { connOk with rsetex := fun _ _ _ => RResult.err "write failed" }

/-- Double whose writes raise a NOPERM permission error. -/
def connNoPermWrite : RedisConn Nat :=
  { connOk with
    rsetex := fun _ _ _ =>
      RResult.err "NOPERM this user has no permissions to run the set command" }

/-- Double whose reads raise a NOPERM permission error. -/
def connNoPermRead : RedisConn Nat :=
  { connOk with
    rget := fun _ =>
      RResult.err "NOPERM this user has no permissions to run the get command" }

/-- Fresh instance whose probe has marked the store unavailable. -/
def stUnavail : CacheState Nat :=
  { initState Nat with isRedisAvailable := false }

/-- Fresh instance whose probe has marked the store read-only. -/
def stReadOnly : CacheState Nat :=
  { initState Nat with isReadOnly := true }

/-- Fresh instance for which point reads are not permitted. -/
def stNoGet : CacheState Nat :=
  { initState Nat with getCommandAllowed := false }

/-- Fresh instance for which bulk key enumeration is not permitted. -/
def stNoKeys : CacheState Nat :=
  { initState Nat with keysCommandAllowed := false }

/-- State reached from a fresh instance by the constructor probe (run at
time 60000) against a healthy store: available, writable, all commands
permitted. -/
def stProbedOk : CacheState Nat :=
  (RedisCache.checkRedisConnection 60000 connOk (initState Nat)).2.1

/-- State reached from a fresh instance by one set against a healthy
store. -/
def stAfterSet : CacheState Nat :=
  (RedisCache.set "k" (0 : Nat) 1 connOk (initState Nat)).2.1

/-! Helper lemmas about the memory cache and the state components the
cache operations leave untouched. -/

theorem memHas_memSet {V : Type} (m : MemCache V) (k : String) (v : V) :
    memHas (memSet m k v) k = true := by
  simp [memHas, memSet]

theorem memGet_memSet {V : Type} (m : MemCache V) (k : String) (v : V) :
    memGet (memSet m k v) k = some v := by
  simp [memGet, memSet, List.find?]

theorem find?_filter_ne {α : Type} (l : List (String × α)) (k : String) :
    (l.filter (fun q => q.1 != k)).find? (fun p => p.1 == k) = none := by
  rw [List.find?_eq_none]
  intro x hx
  have h := (List.mem_filter.mp hx).2
  simpa using h

/-- Every branch of set leaves the memory cache holding the new entry. -/
theorem set_memoryCache {V : Type} (k : String) (v : V) (ttl : Nat)
    (conn : RedisConn V) (s : CacheState V) :
    (RedisCache.set k v ttl conn s).2.1.memoryCache = memSet s.memoryCache k v := by
  simp only [RedisCache.set]
  repeat' split
  all_goals rfl

/-- set never touches the probe timestamp. -/
theorem set_lastCheck {V : Type} (k : String) (v : V) (ttl : Nat)
    (conn : RedisConn V) (s : CacheState V) :
    (RedisCache.set k v ttl conn s).2.1.lastConnectionCheck = s.lastConnectionCheck := by
  simp only [RedisCache.set]
  repeat' split
  all_goals rfl

/-- get never touches the probe timestamp. -/
theorem get_lastCheck {V : Type} (k : String) (conn : RedisConn V)
    (s : CacheState V) :
    (RedisCache.get k conn s).2.1.lastConnectionCheck = s.lastConnectionCheck := by
  simp only [RedisCache.get]
  repeat' split
  all_goals rfl

/-- Every branch of clear leaves the memory cache empty. -/
theorem clear_memoryCache {V : Type} (p : Option String) (conn : RedisConn V)
    (s : CacheState V) :
    (RedisCache.clear p conn s).2.1.memoryCache = [] := by
  simp only [RedisCache.clear]
  repeat' split
  all_goals rfl

/-! Claim theorems. -/

/-- C1, counterexample.  With the persistent tier believed available and
writable, a set whose persistent write raises an unclassified error
returns false even though the memory-cache write succeeded, so set does
fail solely because of the persistent tier (redis-cache.ts line 300). -/
theorem set_write_error_cex :
    (RedisCache.set "k" (0 : Nat) 10 connWriteFail (initState Nat)).1 = false
    ∧ memHas (RedisCache.set "k" (0 : Nat) 10 connWriteFail
        (initState Nat)).2.1.memoryCache "k" = true := by
  decide

/-- C1, amended.  A set skips the persistent write and returns true when
the tier is already known unavailable or read-only; but when a persistent
write is attempted and raises, set returns false despite the successful
Local Tier write. -/
theorem set_success_matrix {V : Type} (s : CacheState V) (conn : RedisConn V)
    (k : String) (v : V) (ttl : Nat) (m : String) :
    ((s.isRedisAvailable = false ∨ s.isReadOnly = true) →
      (RedisCache.set k v ttl conn s).1 = true)
    ∧ (s.isRedisAvailable = true → s.isReadOnly = false →
        conn.rsetex (RedisCache.getFullKey k) (RedisVal.val v) ttl = RResult.err m →
        (RedisCache.set k v ttl conn s).1 = false
        ∧ memHas (RedisCache.set k v ttl conn s).2.1.memoryCache k = true) := by
  constructor
  · rintro (h | h) <;> simp [RedisCache.set, h]
  · intro ha hr he
    constructor
    · simp only [RedisCache.set, ha, hr, he]
      repeat' split
      all_goals simp_all
    · rw [set_memoryCache]
      exact memHas_memSet s.memoryCache k v

/-- Witness for the amended C1 at concrete inputs: a set against a tier
known unavailable returns true, and a set whose attempted write raises
returns false. -/
theorem set_success_matrix_witness :
    (RedisCache.set "k" (0 : Nat) 10 connOk stUnavail).1 = true
    ∧ (RedisCache.set "k" (0 : Nat) 10 connWriteFail (initState Nat)).1 = false :=
  ⟨(set_success_matrix stUnavail connOk "k" 0 10 "write failed").1 (Or.inl rfl),
   ((set_success_matrix (initState Nat) connWriteFail "k" 0 10
      "write failed").2 rfl rfl rfl).1⟩

/-- C2, confirmed.  For ttl greater than 0, a set immediately followed by
a get returns the value unchanged, whatever the cache state and whatever
the persistent tier does on either call: set writes the memory cache
first and get consults the memory cache first. -/
theorem set_then_get {V : Type} (s : CacheState V) (conn conn2 : RedisConn V)
    (k : String) (v : V) (ttl : Nat) (h : 0 < ttl) :
    (RedisCache.get k conn2 (RedisCache.set k v ttl conn s).2.1).1 = some v := by
  have hm := set_memoryCache k v ttl conn s
  simp [RedisCache.get, hm, memHas_memSet, memGet_memSet]

/-- Witness for C2: set then get on a fresh instance whose persistent
tier times out on every command still returns the stored value. -/
theorem set_then_get_witness :
    0 < 5
    ∧ (RedisCache.get "k" connTimeout
        (RedisCache.set "k" (7 : Nat) 5 connTimeout (initState Nat)).2.1).1 = some 7 :=
  ⟨by decide, set_then_get (initState Nat) connTimeout connTimeout "k" 7 5 (by decide)⟩

/-- C3, counterexample.  stAfterSet is the state reached by
set "k" 0 (ttl 1 second) on a fresh instance.  Neither get nor has reads
the clock (Date.now() is consulted only by the probe throttle), so at
every later instant, in particular past the TTL, get still returns the
value and has still returns true: an expired entry is not treated as
absent by the Tiered Cache. -/
theorem expired_entry_cex :
    (RedisCache.get "k" connOk stAfterSet).1 = some 0
    ∧ (RedisCache.has "k" connOk stAfterSet).1 = true := by
  decide

/-- C3, amended.  After set on the Tiered Cache the Local Tier entry
never expires: any later get returns the value and has returns true,
since the memory cache stores bare values with no timestamps.  The
claimed expiry-as-absence behaviour holds for the ServerCache component
instead: once now exceeds expiresAt, its get returns null and eagerly
deletes the entry, and a subsequent has returns false. -/
theorem local_no_expiry_server_expires {V : Type} (s : CacheState V)
    (conn conn2 conn3 : RedisConn V) (k : String) (v : V) (ttl : Nat)
    (st : ServerState V) (now t : Nat) (h : now + ttl < t) :
    (RedisCache.get k conn2 (RedisCache.set k v ttl conn s).2.1).1 = some v
    ∧ (RedisCache.has k conn3 (RedisCache.set k v ttl conn s).2.1).1 = true
    ∧ (ServerCache.get t k (ServerCache.set now k v ttl st)).1 = none
    ∧ ServerCache.has t k (ServerCache.get t k (ServerCache.set now k v ttl st)).2 = false := by
  have hm := set_memoryCache k v ttl conn s
  have hf : (ServerCache.set now k v ttl st).find? (fun p => p.1 == k) =
      some (k, ⟨v, now, now + ttl⟩) := by
    simp [ServerCache.set, List.find?_cons_of_pos]
  refine ⟨?_, ?_, ?_, ?_⟩
  · simp [RedisCache.get, hm, memHas_memSet, memGet_memSet]
  · simp [RedisCache.has, hm, memHas_memSet]
  · simp [ServerCache.get, hf, h]
  · have hrm : (ServerCache.get t k (ServerCache.set now k v ttl st)).2
        = (ServerCache.set now k v ttl st).filter (fun q => q.1 != k) := by
      simp [ServerCache.get, hf, h]
    rw [hrm]
    unfold ServerCache.has
    rw [find?_filter_ne]

/-- Witness for the amended C3: concrete run with ttl 1, write at time 0,
read at time 2. -/
theorem local_no_expiry_server_expires_witness :
    0 + 1 < 2
    ∧ (ServerCache.get 2 "k" (ServerCache.set 0 "k" (3 : Nat) 1 [])).1 = none
    ∧ (RedisCache.get "k" connOk
        (RedisCache.set "k" (3 : Nat) 1 connOk (initState Nat)).2.1).1 = some 3 :=
  ⟨by decide,
   (local_no_expiry_server_expires (initState Nat) connOk connOk connOk
      "k" 3 1 [] 0 2 (by decide)).2.2.1,
   (local_no_expiry_server_expires (initState Nat) connOk connOk connOk
      "k" 3 1 [] 0 2 (by decide)).1⟩

/-- C7, code bug.  A probe whose sentinel read raises "connection
timeout" lands in the inner catch of redis-cache.ts lines 62-72, whose
else branch treats any non-permission failure as "the key might not
exist": the resulting status still has available = true and
getCommandAllowed = true, and the trace shows the EXISTS, KEYS and write
probes were all still issued rather than skipped.  The handler the claim
describes exists at lines 146-152 ("Complete connection failure",
setting every capability false) but is unreachable, because every client
await sits inside an inner try/catch. -/
theorem probe_timeout_not_outage :
    (RedisCache.checkRedisConnection 60000 connTimeout (initState Nat)).1.available = true
    ∧ (RedisCache.checkRedisConnection 60000 connTimeout
        (initState Nat)).1.getCommandAllowed = true
    ∧ (RedisCache.checkRedisConnection 60000 connTimeout (initState Nat)).2.2 =
        [RCall.getC (pfx ++ "_connection_test_readonly"),
         RCall.existsC (pfx ++ "_connection_test_readonly"),
         RCall.keysC (pfx ++ "_test_keys_*"),
         RCall.setC (pfx ++ "_connection_test_write") 10] := by
  decide

/-- C9, confirmed.  clear empties the Local Tier in every branch, so two
successive clears leave its size at 0 after each call, for every cache
state and every persistent-tier behaviour; and since every persistent
call inside clear is consumed by the catch of lines 383-402, clear is a
total function that cannot raise, so the second call is never an error. -/
theorem clear_idempotent_local {V : Type} (s : CacheState V)
    (c1 c2 : RedisConn V) (p1 p2 : Option String) :
    memSize (RedisCache.clear p1 c1 s).2.1.memoryCache = 0
    ∧ memSize (RedisCache.clear p2 c2 (RedisCache.clear p1 c1 s).2.1).2.1.memoryCache = 0 := by
  constructor <;> rw [clear_memoryCache] <;> rfl

/-- C4, confirmed.  Any persistent-tier error raised during get is
consumed inside get, which returns null; when the error is classified as
connectivity (and not permission), isRedisAvailable flips to false on the
spot, and a getStatus issued before the next probe interval elapses
reports available = false. -/
theorem get_swallows_persistent_errors {V : Type} (s : CacheState V)
    (conn conn2 : RedisConn V) (k m : String) (now : Nat)
    (hmem : memHas s.memoryCache k = false)
    (ha : s.isRedisAvailable = true) (hg : s.getCommandAllowed = true)
    (he : conn.rget (RedisCache.getFullKey k) = RResult.err m) :
    (RedisCache.get k conn s).1 = none
    ∧ (isPermMsg m = false → isConnMsg m = true →
        (RedisCache.get k conn s).2.1.isRedisAvailable = false
        ∧ (now - s.lastConnectionCheck < connectionCheckInterval →
            (RedisCache.getStatus now conn2
              (RedisCache.get k conn s).2.1).1.available = false)) := by
  constructor
  · simp only [RedisCache.get, hmem, ha, hg, he]
    repeat' split
    all_goals simp_all
  · intro hp hc
    have hstate : (RedisCache.get k conn s).2.1 = { s with isRedisAvailable := false } := by
      simp [RedisCache.get, hmem, ha, hg, he, hp, hc]
    constructor
    · rw [hstate]
    · intro hfresh
      rw [hstate]
      simp [RedisCache.getStatus, RedisCache.checkRedisConnection, hfresh]

/-- Witness for C4: a get against a timing-out double on a fresh
instance returns null, and an immediate getStatus reports
available = false. -/
theorem get_swallows_persistent_errors_witness :
    (RedisCache.get "k" connTimeout (initState Nat)).1 = none
    ∧ (RedisCache.getStatus 0 connOk
        (RedisCache.get "k" connTimeout (initState Nat)).2.1).1.available = false := by
  have h := get_swallows_persistent_errors (initState Nat) connTimeout connOk
    "k" "connection timeout" 0 rfl rfl rfl rfl
  exact ⟨h.1, (h.2 (by decide) (by decide)).2 (by decide)⟩

/-- C5, counterexample.  From a fresh instance, run the constructor probe
at time 60000 against a healthy store (reaching stProbedOk), then one get
whose persistent read times out: the reached state has
isRedisAvailable = false with isReadOnly = false and both command flags
still true, and an immediate getStatus reports the same CapabilityStatus,
violating the claimed implication. -/
theorem unavailable_grants_capability_cex :
    (RedisCache.get "k" connTimeout stProbedOk).2.1.isRedisAvailable = false
    ∧ (RedisCache.get "k" connTimeout stProbedOk).2.1.isReadOnly = false
    ∧ (RedisCache.get "k" connTimeout stProbedOk).2.1.keysCommandAllowed = true
    ∧ (RedisCache.get "k" connTimeout stProbedOk).2.1.getCommandAllowed = true
    ∧ (RedisCache.getStatus 60000 connOk
        (RedisCache.get "k" connTimeout stProbedOk).2.1).1.available = false
    ∧ (RedisCache.getStatus 60000 connOk
        (RedisCache.get "k" connTimeout stProbedOk).2.1).1.readOnly = false := by
  decide

/-- C5, amended.  The only probe transition that couples the flags is
the sentinel-read permission failure: after a probe whose sentinel read
fails with a permission error, available = false and
getCommandAllowed = false (whatever the later probe steps return).  In
general, however, available = false does not imply readOnly = true or
the command flags false, as the counterexample shows. -/
theorem probe_noperm_read_disables {V : Type} (s : CacheState V)
    (conn : RedisConn V) (now : Nat) (m : String)
    (hstale : ¬ (now - s.lastConnectionCheck < connectionCheckInterval))
    (he : conn.rget (pfx ++ "_connection_test_readonly") = RResult.err m)
    (hp : isPermMsg m = true) :
    (RedisCache.checkRedisConnection now conn s).2.1.isRedisAvailable = false
    ∧ (RedisCache.checkRedisConnection now conn s).2.1.getCommandAllowed = false := by
  unfold RedisCache.checkRedisConnection
  rw [if_neg hstale]
  simp only [he, hp]
  repeat' split
  all_goals simp_all

/-- Witness for the amended C5 at a concrete input: a probe against a
double whose reads raise NOPERM. -/
theorem probe_noperm_read_disables_witness :
    (RedisCache.checkRedisConnection 60000 connNoPermRead
      (initState Nat)).2.1.isRedisAvailable = false
    ∧ (RedisCache.checkRedisConnection 60000 connNoPermRead
        (initState Nat)).2.1.getCommandAllowed = false :=
  probe_noperm_read_disables (initState Nat) connNoPermRead 60000
    "NOPERM this user has no permissions to run the get command"
    (by decide) rfl (by decide)

/-- C6, confirmed.  When an attempted persistent write inside set raises
an error whose message matches NOPERM, "no permissions" or "readonly",
isReadOnly flips to true during that very set call, and a getStatus
issued before the probe interval elapses (so the probe answers from
cache) already reports readOnly = true. -/
theorem set_noperm_flips_readonly {V : Type} (s : CacheState V)
    (conn conn2 : RedisConn V) (k m : String) (v : V) (ttl now : Nat)
    (ha : s.isRedisAvailable = true) (hr : s.isReadOnly = false)
    (he : conn.rsetex (RedisCache.getFullKey k) (RedisVal.val v) ttl = RResult.err m)
    (hp : isWritePermMsg m = true)
    (hfresh : now - s.lastConnectionCheck < connectionCheckInterval) :
    (RedisCache.set k v ttl conn s).2.1.isReadOnly = true
    ∧ (RedisCache.getStatus now conn2
        (RedisCache.set k v ttl conn s).2.1).1.readOnly = true := by
  have hstate : (RedisCache.set k v ttl conn s).2.1 =
      { s with memoryCache := memSet s.memoryCache k v, isReadOnly := true } := by
    simp [RedisCache.set, ha, hr, he, hp]
  constructor
  · rw [hstate]
  · rw [hstate]
    simp only [RedisCache.getStatus, RedisCache.checkRedisConnection]
    rw [if_pos hfresh]
    repeat' split
    all_goals rfl

/-- Witness for C6: one set against a double raising NOPERM on write,
then an immediate getStatus. -/
theorem set_noperm_flips_readonly_witness :
    (RedisCache.set "k" (0 : Nat) 10 connNoPermWrite (initState Nat)).2.1.isReadOnly = true
    ∧ (RedisCache.getStatus 0 connOk
        (RedisCache.set "k" (0 : Nat) 10 connNoPermWrite
          (initState Nat)).2.1).1.readOnly = true :=
  set_noperm_flips_readonly (initState Nat) connNoPermWrite connOk "k"
    "NOPERM this user has no permissions to run the set command"
    0 10 0 rfl rfl rfl (by decide) (by decide)

/-- C8, confirmed.  When keysCommandAllowed = false, clear empties the
Local Tier, issues no persistent-tier call at all (in particular no KEYS
enumeration), and returns true; the distinction between a memory-only
and a full clear is carried by the status, not the boolean: an immediate
getStatus reports keysCommandAllowed = false after a memory-only clear
(issuing no KEYS call itself), whereas after a successful full clear it
reports keysCommandAllowed = true. -/
theorem clear_without_keys_permission {V : Type} (s : CacheState V)
    (conn conn2 : RedisConn V) (p : String) (now : Nat)
    (hk : s.keysCommandAllowed = false)
    (hfresh : now - s.lastConnectionCheck < connectionCheckInterval) :
    (RedisCache.clear (some p) conn s).2.1.memoryCache = []
    ∧ (RedisCache.clear (some p) conn s).2.2 = []
    ∧ (RedisCache.clear (some p) conn s).1 = true
    ∧ (RedisCache.getStatus now conn2
        (RedisCache.clear (some p) conn s).2.1).1.keysCommandAllowed = false
    ∧ (RedisCache.getStatus now conn2
        (RedisCache.clear (some p) conn s).2.1).2.2 = []
    ∧ (∀ (s2 : CacheState V) (conn3 : RedisConn V) (now2 : Nat),
        s2.isRedisAvailable = true → s2.isReadOnly = false →
        s2.keysCommandAllowed = true →
        conn3.rkeys (RedisCache.getFullKey p) = RResult.ok [] →
        conn3.rkeys (pfx ++ "*") = RResult.ok [] →
        now2 - s2.lastConnectionCheck < connectionCheckInterval →
        (RedisCache.clear (some p) conn3 s2).1 = true
        ∧ (RedisCache.getStatus now2 conn3
            (RedisCache.clear (some p) conn3 s2).2.1).1.keysCommandAllowed = true) := by
  have hclear : RedisCache.clear (some p) conn s =
      (true, { s with memoryCache := [] }, []) := by
    simp [RedisCache.clear, hk]
  refine ⟨by rw [hclear], by rw [hclear], by rw [hclear], ?_, ?_, ?_⟩
  · rw [hclear]
    simp [RedisCache.getStatus, RedisCache.checkRedisConnection, hfresh, hk]
  · rw [hclear]
    simp [RedisCache.getStatus, RedisCache.checkRedisConnection, hfresh, hk]
  · intro s2 conn3 now2 h1 h2 h3 hk1 hk2 hfresh2
    have hc2 : RedisCache.clear (some p) conn3 s2 =
        (true, { s2 with memoryCache := [] }, [RCall.keysC (RedisCache.getFullKey p)]) := by
      simp [RedisCache.clear, h1, h2, h3, hk1]
    refine ⟨by rw [hc2], ?_⟩
    rw [hc2]
    simp [RedisCache.getStatus, RedisCache.checkRedisConnection, hfresh2,
      h1, h3, hk2]

/-- Witness for C8: a memory-only clear without KEYS permission versus a
full clear on a fresh instance against a healthy store. -/
theorem clear_without_keys_permission_witness :
    (RedisCache.clear (some "p") connOk stNoKeys).2.2 = []
    ∧ (RedisCache.getStatus 0 connOk
        (RedisCache.clear (some "p") connOk stNoKeys).2.1).1.keysCommandAllowed = false
    ∧ (RedisCache.getStatus 0 connOk
        (RedisCache.clear (some "p") connOk (initState Nat)).2.1).1.keysCommandAllowed = true := by
  have h := clear_without_keys_permission stNoKeys connOk connOk "p" 0 rfl (by decide)
  exact ⟨h.2.1, h.2.2.2.1,
    (h.2.2.2.2.2 (initState Nat) connOk 0 rfl rfl rfl rfl rfl (by decide)).2⟩

/-- C10, confirmed.  With the tier available and writable: if point reads
are permitted, a set whose persistent write succeeds issues a
verification read of the just-written key and returns false when that
read yields no data, even though both the Local Tier write and the
persistent write happened; if point reads are not permitted, set skips
the verification read and returns true after the write. -/
theorem set_verification_read {V : Type} (s : CacheState V)
    (conn : RedisConn V) (k : String) (v : V) (ttl : Nat)
    (ha : s.isRedisAvailable = true) (hr : s.isReadOnly = false)
    (hw : conn.rsetex (RedisCache.getFullKey k) (RedisVal.val v) ttl = RResult.ok ()) :
    (s.getCommandAllowed = true → conn.rget (RedisCache.getFullKey k) = RResult.ok none →
      (RedisCache.set k v ttl conn s).1 = false
      ∧ (RedisCache.set k v ttl conn s).2.2 =
          [RCall.setC (RedisCache.getFullKey k) ttl, RCall.getC (RedisCache.getFullKey k)]
      ∧ memHas (RedisCache.set k v ttl conn s).2.1.memoryCache k = true)
    ∧ (s.getCommandAllowed = false →
      (RedisCache.set k v ttl conn s).1 = true
      ∧ (RedisCache.set k v ttl conn s).2.2 = [RCall.setC (RedisCache.getFullKey k) ttl]) := by
  constructor
  · intro hg hget
    refine ⟨?_, ?_, ?_⟩
    · simp [RedisCache.set, ha, hr, hw, hg, hget]
    · simp [RedisCache.set, ha, hr, hw, hg, hget]
    · rw [set_memoryCache]
      exact memHas_memSet s.memoryCache k v
  · intro hg
    constructor
    · simp [RedisCache.set, ha, hr, hw, hg]
    · simp [RedisCache.set, ha, hr, hw, hg]

/-- Witness for C10: against a healthy double whose reads find nothing,
a fresh instance's set returns false after its verification read; with
point reads not permitted the same set returns true. -/
theorem set_verification_read_witness :
    (RedisCache.set "k" (0 : Nat) 10 connOk (initState Nat)).1 = false
    ∧ (RedisCache.set "k" (0 : Nat) 10 connOk stNoGet).1 = true := by
  have h1 := set_verification_read (initState Nat) connOk "k" (0 : Nat) 10 rfl rfl rfl
  have h2 := set_verification_read stNoGet connOk "k" (0 : Nat) 10 rfl rfl rfl
  exact ⟨(h1.1 rfl rfl).1, (h2.2 rfl).1⟩

end Monocloud
